import Mathlib

/-!
Verification development for the volvooncall-mqtt bridge.

The repository snapshot contains several revisions of each file.  The
embedding below follows the coherent newest revision of the program:

* the VOC cloud client (`voc.js`, the second half of `src/lib/car.js`),
* the newest `VocCar` class (embedded at the end of `src/README.md`; it is
  the only revision defining `isReady`, `lock`, `unlock` and the heater
  methods that the newest `App` calls),
* the newest `App` (`src/unnamed/part_000`).

JavaScript values that the embedded code inspects are modelled by the
`Json` type below; JavaScript truthiness is modelled by `jsTruthy`.
External collaborators (the HTTP transport, `JSON.parse`, `Math`
trigonometry) are parameters, matching the scope line of the specification,
which treats them as collaborators.
-/

/-- Model of the JavaScript values flowing through the bridge. -/
inductive Json where
  | undef : Json
  | bool (b : Bool) : Json
  | str (s : String) : Json
  | obj (fields : List (String × Json)) : Json
deriving Repr

/-- Property read `o[k]` on a JavaScript value: `undefined` unless `o` is an
object with field `k`. -/
def jsGet : Json → String → Json
  | Json.obj fields, k =>
      match fields.find? (fun f => f.1 = k) with
      | some f => f.2
      | none => Json.undef
  | _, _ => Json.undef

/-- JavaScript truthiness of a modelled value. -/
def jsTruthy : Json → Bool
  | Json.undef => false
  | Json.bool b => b
  | Json.str s => decide (s ≠ "")
  | Json.obj _ => true

/-- The JavaScript expression `a || b`. -/
def jsOr (a b : Json) : Json :=
  if jsTruthy a then a else b

/-- Truthiness of an optional string (JavaScript: `undefined` and the empty
string are falsy). -/
def optStrFalsy : Option String → Bool
  | none => true
  | some s => decide (s = "")

/-- Truthiness of an optional boolean capability flag, as in
`this.attributes[flag] || false`. -/
def truthyOptBool : Option Bool → Bool
  | none => false
  | some b => b

/-- Truthiness of an optional numeric field, as in `!self.position.latitude`
(absent and zero are falsy; the model has no NaN). -/
def truthyOptRat : Option Rat → Bool
  | none => false
  | some x => decide (x ≠ 0)

/-- String interpolation of a possibly absent string: JavaScript template
literals print `undefined` for a missing field. -/
def jsShowOptStr : Option String → String
  | none => "undefined"
  | some s => s

/-- Splitting a string on `/`, as in `topic.split` with a one-character
separator (structural, so that concrete instances evaluate). -/
def splitSlashAux : List Char → List Char → List String
  | [], acc => [String.mk acc.reverse]
  | c :: rest, acc =>
      if c = '/' then String.mk acc.reverse :: splitSlashAux rest []
      else splitSlashAux rest (c :: acc)

/-- JavaScript `s.split` on the separator `/`. -/
def splitSlash (s : String) : List String :=
  splitSlashAux s.toList []

/-- The substring after the last `/`, as in
`s.substring(s.lastIndexOf(0x2f) + 1)`; with no slash the whole string. -/
def lastPathSegment (s : String) : String :=
  (splitSlash s).getLastD s

/-! ## RemoteCommandInvoker core: `runFor` and `awaitSuccessfulServiceInvocation`
(voc.js).  A poll oracle `poll : Nat → String` gives the status string
returned by the i-th `getServiceInvocationStatus` call. -/

/-- Outcome of the `runFor` polling loop: `counter` is the final value of the
source variable `counter` (the number of polls issued), `waitedMs` the sum
of the `timeoutPromise(interval)` waits, `flag` the value of
`_serviceInvocationSuccess` after the loop. -/
structure RunForOut where
  counter : Nat
  waitedMs : Nat
  flag : Bool
deriving DecidableEq, Repr

/-- One step of the `while (!done && counter < 15)` loop of `runFor`;
`budget` is `15 - counter`.  Each iteration first waits `interval`, then
polls; `Successful` sets `done` and the success flag, `Failed` sets `done`
only, any other status continues. -/
def runForAux (poll : Nat → String) (interval : Nat) :
    Nat → Nat → Bool → Nat → RunForOut
  | counter, 0, flag, waited => ⟨counter, waited, flag⟩
  | counter, budget + 1, flag, waited =>
      let response := poll counter
      if response = "Successful" then
        ⟨counter + 1, waited + interval, true⟩
      else if response = "Failed" then
        ⟨counter + 1, waited + interval, flag⟩
      else
        runForAux poll interval (counter + 1) budget flag (waited + interval)

/-- The `runFor` polling loop of voc.js: at most 15 polls, one per
`interval` milliseconds. -/
def runFor (poll : Nat → String) (interval : Nat) (flag : Bool) : RunForOut :=
  runForAux poll interval 0 15 flag 0

/-- Result of a resolved `awaitSuccessfulServiceInvocation`: the resolved
value (the success flag as read), the value of `_serviceInvocationSuccess`
after resolution (reset before returning), and the polling statistics. -/
structure AwaitOut where
  result : Bool
  flagAfter : Bool
  polls : Nat
  waitedMs : Nat
deriving DecidableEq, Repr

/-- `awaitSuccessfulServiceInvocation` (voc.js): reject immediately when
`serviceId` is falsy, otherwise run `runFor` at a 1000 ms interval, then
read and reset `_serviceInvocationSuccess` and resolve with the read
value. -/
def awaitSuccessfulServiceInvocation (flag : Bool) (serviceId : Option String)
    (poll : Nat → String) : Except String AwaitOut :=
  if optStrFalsy serviceId then Except.error ("ServiceId is null!")
  else
    let r := runFor poll 1000 flag
    Except.ok ⟨r.flag, false, r.counter, r.waitedMs⟩

/-- Sequential composition of non-overlapping invocations on the one shared
VOC instance, threading `_serviceInvocationSuccess`: returns the list of
per-invocation outcomes and the final flag value. -/
def runInvocations : Bool → List (Option String × (Nat → String)) →
    List (Except String AwaitOut) × Bool
  | flag, [] => ([], flag)
  | flag, (sid, poll) :: rest =>
      match awaitSuccessfulServiceInvocation flag sid poll with
      | Except.error e =>
          let r := runInvocations flag rest
          (Except.error e :: r.1, r.2)
      | Except.ok out =>
          let r := runInvocations out.flagAfter rest
          (Except.ok out :: r.1, r.2)

/-! ## Vehicle state (`VocCar`, newest revision) and the cloud collaborator. -/

/-- The capability flags of the attributes blob that the embedded code
reads (the blob has many more fields; only these are inspected). -/
structure Attributes where
  highVoltageBatterySupported : Option Bool
  carLocatorSupported : Option Bool
  remoteHeaterSupported : Option Bool
  preclimatizationSupported : Option Bool
deriving Repr

/-- A position payload as returned by the cloud position endpoint; absent
coordinates model `undefined`. -/
structure PositionData where
  latitude : Option Rat
  longitude : Option Rat
deriving DecidableEq, Repr

/-- The `position` sub-object of a cloud charge location. -/
structure LocPosition where
  streetAddress : Option String
  postalCode : Option String
  city : Option String
  latitude : Option Rat
  longitude : Option Rat
deriving DecidableEq, Repr

/-- A raw charge-location payload from the cloud. -/
structure RawLocation where
  name : Option String
  position : LocPosition
  chargeLocation : String
deriving DecidableEq, Repr

/-- A cached charge-location entry as built by `updateChargeLocations`. -/
structure ChargeLocationEntry where
  id : String
  name : String
  location : RawLocation
deriving DecidableEq, Repr

/-- A derived distances entry as built by `updateDistances`. -/
structure DistanceEntry where
  chargeLocationId : String
  chargeLocationName : String
  distanceToChargeLocation : Rat
  currentPositionLatitude : Option Rat
  currentPositionLongitude : Option Rat
deriving DecidableEq, Repr

/-- The `Math` trigonometry used by `calculateDistance`, treated as an
external collaborator and therefore a parameter of the model. -/
structure MathLib where
  sin : Rat → Rat
  cos : Rat → Rat
  acos : Rat → Rat
  pi : Rat

/-- `calculateDistance` of `VocCar`: returns 0 when any coordinate is falsy
(absent or zero), otherwise the spherical-law-of-cosines formula with the
unit conversions of the source applied in sequence. -/
def calculateDistance (m : MathLib) (lat1 lon1 lat2 lon2 : Option Rat)
    (unit : String) : Rat :=
  match lat1, lon1, lat2, lon2 with
  | some a1, some o1, some a2, some o2 =>
      if a1 = 0 ∨ o1 = 0 ∨ a2 = 0 ∨ o2 = 0 then 0
      else
        let u := unit.toUpper
        let radlat1 := m.pi * a1 / 180
        let radlat2 := m.pi * a2 / 180
        let theta := o1 - o2
        let radtheta := m.pi * theta / 180
        let d0 := m.sin radlat1 * m.sin radlat2 +
          m.cos radlat1 * m.cos radlat2 * m.cos radtheta
        let d1 := m.acos d0
        let d2 := d1 * 180 / m.pi
        let d3 := d2 * 60 * 1.1515
        let d4 := if u = "K" then d3 * 1.609344 else d3
        let d5 := if u = "M" then d4 * 1.609344 * 1000 else d4
        if u = "N" then d5 * 0.8684 else d5
  | _, _, _, _ => 0

/-- Cached state of one `VocCar` instance.  `chargeLocations` keeps the
insertion order of the JavaScript object keys. -/
structure VocCarState where
  vehicleId : String
  vehicleName : String
  chargeLocations : List ChargeLocationEntry
  attributes : Attributes
  status : Json
  distances : List DistanceEntry
  position : PositionData
deriving Repr

/-- `isChargingSupported` of `VocCar`. -/
def isChargingSupported (car : VocCarState) : Bool :=
  truthyOptBool car.attributes.highVoltageBatterySupported

/-- `isPositionSupported` of `VocCar`. -/
def isPositionSupported (car : VocCarState) : Bool :=
  truthyOptBool car.attributes.carLocatorSupported

/-- `isRemoteHeaterSupported` of `VocCar`. -/
def isRemoteHeaterSupported (car : VocCarState) : Bool :=
  truthyOptBool car.attributes.remoteHeaterSupported

/-- `isPreClimatizationSupported` of `VocCar`. -/
def isPreClimatizationSupported (car : VocCarState) : Bool :=
  truthyOptBool car.attributes.preclimatizationSupported

/-- The events a `VocCar` emits. -/
inductive CarEvent where
  | attributes_updated
  | status_updated
  | charge_locations_updated
  | position_updated
  | distances_updated
  | delay_charging_complete
  | start_charging_complete
  | lock_complete
  | unlock_complete
  | start_heater_complete
  | stop_heater_complete
  | start_preclimatization_complete
  | stop_preclimatization_complete
deriving DecidableEq, Repr

/-- A cloud API request, as recorded on the call trace. -/
inductive CloudReq where
  | getAttributes (vehicleId : String)
  | getChargeLocations (vehicleId : String)
  | getStatus (vehicleId : String)
  | getPosition (vehicleId : String)
  | postUpdateStatus (vehicleId : String)
  | postStartCharging (vehicleId : String)
  | postLock (vehicleId : String)
  | postUnlock (vehicleId : String)
  | postHeaterStart (vehicleId : String)
  | postHeaterStop (vehicleId : String)
  | postPreclimatizationStart (vehicleId : String)
  | postPreclimatizationStop (vehicleId : String)
  | putDelayCharging (vehicleId : String) (chargeLocationId : Json) (payload : Json)
  | getServiceStatus (vehicleId : String) (serviceId : String)
deriving Repr

/-- A cloud response carrying an optional `customerServiceId`, as returned
by the simple action endpoints. -/
structure UpdateStatusResp where
  customerServiceId : Option String
deriving DecidableEq, Repr

/-- The delay-charging endpoint response: an optional `service` resource
reference plus the rest of the body. -/
structure DelayResp where
  service : Option String
  body : Json
deriving Repr

/-- The cloud collaborator: one response per endpoint, and a status oracle
for invocation polling (`serviceStatus sid i` is the status string of the
i-th poll of invocation `sid`). -/
structure Cloud where
  attributesData : Except String Attributes
  chargeLocationsData : Except String (List RawLocation)
  statusData : Except String Json
  positionData : Except String PositionData
  updateStatusResp : Except String UpdateStatusResp
  startChargingResp : Except String UpdateStatusResp
  lockResp : Except String UpdateStatusResp
  unlockResp : Except String UpdateStatusResp
  heaterStartResp : Except String UpdateStatusResp
  heaterStopResp : Except String UpdateStatusResp
  preclimStartResp : Except String UpdateStatusResp
  preclimStopResp : Except String UpdateStatusResp
  delayResp : Except String DelayResp
  serviceStatus : String → Nat → String

/-- System state threaded through the embedded methods: the vehicle cache,
the shared `_serviceInvocationSuccess` flag of the VOC instance, the trace
of cloud requests issued, and the trace of events emitted. -/
structure Sys where
  car : VocCarState
  flag : Bool
  calls : List CloudReq
  events : List CarEvent
deriving Repr

/-! ## VOC client operations threaded through `Sys`. -/

/-- `awaitSuccessfulServiceInvocation` recording its polls on the call
trace: rejects without polling when the id is falsy; otherwise runs
`runFor` at 1000 ms and resets the success flag on resolution. -/
def awaitSvcSys (cloud : Cloud) (vehicleId : String) (serviceId : Option String)
    (s : Sys) : Except String Bool × Sys :=
  if optStrFalsy serviceId then (Except.error ("ServiceId is null!"), s)
  else
    let sid := serviceId.getD ("")
    let r := runFor (cloud.serviceStatus sid) 1000 s.flag
    (Except.ok r.flag,
      { s with flag := false,
               calls := s.calls ++ List.replicate r.counter (CloudReq.getServiceStatus vehicleId sid) })

/-- The shared shape of the simple VOC action methods (`startCharging`,
`lock`, `unlock`, heater and preclimatization start/stop,
`refreshVehicleStatusFromCar`): POST the action, then await the returned
`customerServiceId`. -/
def vocSimpleAction (cloud : Cloud) (req : CloudReq)
    (resp : Except String UpdateStatusResp) (s : Sys) : Except String Bool × Sys :=
  let s1 := { s with calls := s.calls ++ [req] }
  match resp with
  | Except.error e => (Except.error e, s1)
  | Except.ok r => awaitSvcSys cloud s1.car.vehicleId r.customerServiceId s1

/-- Result of `VOC.prototype.delayCharging`: either the immediate terminal
response (no invocation id present), or the polled outcome together with
the invocation id that was polled. -/
inductive DelayResult where
  | immediate (service : Option String) (body : Json)
  | invocation (serviceId : String) (result : Bool)

/-- `VOC.prototype.delayCharging`: PUT the payload to the charge-location
resource; if the response carries a truthy `service` reference, await the
invocation whose id is the last path segment of that reference, else
resolve immediately with the response and skip polling. -/
def vocDelayChargingSys (cloud : Cloud) (chargeLocationId : Json) (payload : Json)
    (s : Sys) : Except String DelayResult × Sys :=
  let vid := s.car.vehicleId
  let s1 := { s with calls := s.calls ++ [CloudReq.putDelayCharging vid chargeLocationId payload] }
  match cloud.delayResp with
  | Except.error e => (Except.error e, s1)
  | Except.ok status =>
      if optStrFalsy status.service then
        (Except.ok (DelayResult.immediate status.service status.body), s1)
      else
        let sid := lastPathSegment (status.service.getD (""))
        match awaitSvcSys cloud vid (some sid) s1 with
        | (Except.error e, s2) => (Except.error e, s2)
        | (Except.ok r, s2) => (Except.ok (DelayResult.invocation sid r), s2)

/-! ## `VocCar` methods (newest revision, embedded in src/README.md).
Each method catches cloud failures and logs them, so the `Sys`-level
functions are total; emitted events run the listeners wired by
`registerListeners` synchronously. -/

/-- `updateDistances`: early return unless both cached coordinates are
truthy; otherwise rebuild the whole distances list, one entry per cached
charge location, and emit `distances_updated`. -/
def carUpdateDistancesSys (m : MathLib) (s : Sys) : Sys :=
  if !truthyOptRat s.car.position.latitude || !truthyOptRat s.car.position.longitude then s
  else
    let distances := s.car.chargeLocations.map (fun loc =>
      { chargeLocationId := loc.id
        chargeLocationName := loc.name
        distanceToChargeLocation := calculateDistance m s.car.position.latitude
          s.car.position.longitude loc.location.position.latitude
          loc.location.position.longitude ("K")
        currentPositionLatitude := s.car.position.latitude
        currentPositionLongitude := s.car.position.longitude : DistanceEntry })
    { s with car := { s.car with distances := distances },
             events := s.events ++ [CarEvent.distances_updated] }

/-- `getVehicleStatusFromCloud`: fetch the cloud status snapshot, replace
the cache wholesale and emit `status_updated` (no `VocCar` listener is
wired to that event). -/
def carGetVehicleStatusFromCloud (cloud : Cloud) (s : Sys) : Sys :=
  let s1 := { s with calls := s.calls ++ [CloudReq.getStatus s.car.vehicleId] }
  match cloud.statusData with
  | Except.error _ => s1
  | Except.ok data =>
      { s1 with car := { s1.car with status := data },
                events := s1.events ++ [CarEvent.status_updated] }

/-- `refreshVehicleStatusFromCar`: POST `updatestatus`, await the returned
invocation, and only when it resolves truthy follow with
`getVehicleStatusFromCloud`; failures are logged and nothing follows. -/
def carRefreshVehicleStatusFromCar (cloud : Cloud) (s : Sys) : Sys :=
  match vocSimpleAction cloud (CloudReq.postUpdateStatus s.car.vehicleId)
      cloud.updateStatusResp s with
  | (Except.error _, s1) => s1
  | (Except.ok success, s1) =>
      if success then carGetVehicleStatusFromCloud cloud s1 else s1

/-- The shared success path of the `VocCar` simple action methods: submit
through the VOC client, and on resolution emit the completion event and
trigger `refreshVehicleStatusFromCar`. -/
def carSimpleAction (cloud : Cloud) (req : CloudReq)
    (resp : Except String UpdateStatusResp) (ev : CarEvent) (s : Sys) : Sys :=
  match vocSimpleAction cloud req resp s with
  | (Except.error _, s1) => s1
  | (Except.ok _, s1) =>
      carRefreshVehicleStatusFromCar cloud { s1 with events := s1.events ++ [ev] }

/-- `startCharging` of `VocCar`. -/
def carStartCharging (cloud : Cloud) (s : Sys) : Sys :=
  carSimpleAction cloud (CloudReq.postStartCharging s.car.vehicleId)
    cloud.startChargingResp CarEvent.start_charging_complete s

/-- `lock` of `VocCar`. -/
def carLock (cloud : Cloud) (s : Sys) : Sys :=
  carSimpleAction cloud (CloudReq.postLock s.car.vehicleId)
    cloud.lockResp CarEvent.lock_complete s

/-- `unlock` of `VocCar`. -/
def carUnlock (cloud : Cloud) (s : Sys) : Sys :=
  carSimpleAction cloud (CloudReq.postUnlock s.car.vehicleId)
    cloud.unlockResp CarEvent.unlock_complete s

/-- `startHeater` of `VocCar`. -/
def carStartHeater (cloud : Cloud) (s : Sys) : Sys :=
  carSimpleAction cloud (CloudReq.postHeaterStart s.car.vehicleId)
    cloud.heaterStartResp CarEvent.start_heater_complete s

/-- `stopHeater` of `VocCar`. -/
def carStopHeater (cloud : Cloud) (s : Sys) : Sys :=
  carSimpleAction cloud (CloudReq.postHeaterStop s.car.vehicleId)
    cloud.heaterStopResp CarEvent.stop_heater_complete s

/-- `startPreclimatization` of `VocCar`. -/
def carStartPreclimatization (cloud : Cloud) (s : Sys) : Sys :=
  carSimpleAction cloud (CloudReq.postPreclimatizationStart s.car.vehicleId)
    cloud.preclimStartResp CarEvent.start_preclimatization_complete s

/-- `stopPreclimatization` of `VocCar`. -/
def carStopPreclimatization (cloud : Cloud) (s : Sys) : Sys :=
  carSimpleAction cloud (CloudReq.postPreclimatizationStop s.car.vehicleId)
    cloud.preclimStopResp CarEvent.stop_preclimatization_complete s

/-- The cloud payload built by `VocCar.delayCharging` (newest revision):
`status "Accepted"` and a `delayCharging` object carrying the `enabled`
value and the two times as passed in. -/
def delayChargingCloudPayload (enabled startTime stopTime : Json) : Json :=
  Json.obj [("status", Json.str ("Accepted")),
    ("delayCharging", Json.obj [("enabled", enabled),
      ("startTime", startTime), ("stopTime", stopTime)])]

/-- `delayCharging` of `VocCar` (newest revision, 4 parameters): submit the
payload at the given charge-location id; on success emit
`delay_charging_complete` and call `getVehicleStatusFromCloud()` directly
(not `refreshVehicleStatusFromCar`). -/
def carDelayCharging (cloud : Cloud) (id delayedCharging startTime stopTime : Json)
    (s : Sys) : Sys :=
  let payload := delayChargingCloudPayload delayedCharging startTime stopTime
  match vocDelayChargingSys cloud id payload s with
  | (Except.error _, s1) => s1
  | (Except.ok _, s1) =>
      carGetVehicleStatusFromCloud cloud
        { s1 with events := s1.events ++ [CarEvent.delay_charging_complete] }

/-- `getVehiclePosition` of `VocCar`: unconditionally fetch the position
(the method itself has no capability guard), replace the cache wholesale,
emit `position_updated`, whose listener runs `updateDistances`. -/
def carGetVehiclePosition (m : MathLib) (cloud : Cloud) (s : Sys) : Sys :=
  let s1 := { s with calls := s.calls ++ [CloudReq.getPosition s.car.vehicleId] }
  match cloud.positionData with
  | Except.error _ => s1
  | Except.ok pos =>
      carUpdateDistancesSys m
        { s1 with car := { s1.car with position := pos },
                  events := s1.events ++ [CarEvent.position_updated] }

/-- Insertion into the charge-locations object: JavaScript keyed assignment
replaces in place on an existing key and appends otherwise. -/
def locInsert (l : List ChargeLocationEntry) (e : ChargeLocationEntry) :
    List ChargeLocationEntry :=
  if l.any (fun x => x.id = e.id) then
    l.map (fun x => if x.id = e.id then e else x)
  else l ++ [e]

/-- `updateChargeLocations`: derive a display name for each location (the
street/postal/city form when the cloud name is falsy, `name, street`
otherwise), key it by the last path segment of its resource reference, and
replace the whole cached map. -/
def updateChargeLocations (locations : List RawLocation) :
    List ChargeLocationEntry :=
  locations.foldl (fun acc location =>
    let locationName :=
      if !(jsTruthy (match location.name with
            | none => Json.undef
            | some n => Json.str n)) then
        jsShowOptStr location.position.streetAddress ++ ", " ++
          jsShowOptStr location.position.postalCode ++ " " ++
          jsShowOptStr location.position.city
      else
        jsShowOptStr location.name ++ ", " ++
          jsShowOptStr location.position.streetAddress
    let locationId := lastPathSegment location.chargeLocation
    locInsert acc ⟨locationId, locationName, location⟩) []

/-- `getVehicleChargeLocations`: early return when charging is not
supported; otherwise fetch the locations, replace the cached map and emit
`charge_locations_updated`, whose listener runs `updateDistances`. -/
def carGetVehicleChargeLocations (m : MathLib) (cloud : Cloud) (s : Sys) : Sys :=
  if !isChargingSupported s.car then s
  else
    let s1 := { s with calls := s.calls ++ [CloudReq.getChargeLocations s.car.vehicleId] }
    match cloud.chargeLocationsData with
    | Except.error _ => s1
    | Except.ok locations =>
        carUpdateDistancesSys m
          { s1 with car := { s1.car with chargeLocations := updateChargeLocations locations },
                    events := s1.events ++ [CarEvent.charge_locations_updated] }

/-- `getVehicleAttributes`: fetch the attributes, replace the cache and emit
`attributes_updated`; its listener fetches charge locations when charging
is supported and the position when the locator is supported, using the
freshly cached attributes. -/
def carGetVehicleAttributes (m : MathLib) (cloud : Cloud) (s : Sys) : Sys :=
  let s1 := { s with calls := s.calls ++ [CloudReq.getAttributes s.car.vehicleId] }
  match cloud.attributesData with
  | Except.error _ => s1
  | Except.ok data =>
      let s2 := { s1 with car := { s1.car with attributes := data },
                          events := s1.events ++ [CarEvent.attributes_updated] }
      let s3 := if isChargingSupported s2.car then
          carGetVehicleChargeLocations m cloud s2 else s2
      if isPositionSupported s3.car then carGetVehiclePosition m cloud s3 else s3

/-- The per-vehicle body of the position poller in `App.startPollers`: the
capability gate lives here, at the call site. -/
def positionPollerTick (m : MathLib) (cloud : Cloud) (s : Sys) : Sys :=
  if isPositionSupported s.car then carGetVehiclePosition m cloud s else s

/-! ## `App` fleet coordination (src/unnamed/part_000).
`VocCar` objects are distinguished by a construction counter `gen`, so that
"the same object" and "a freshly constructed object" are expressible; the
constructor-triggered fetch cascade is modelled by `carGetVehicleAttributes`
above and not repeated here. -/

/-- A `VocCar` object reference held in `App.cars`. -/
structure CarObj where
  vehicleId : String
  gen : Nat
deriving DecidableEq, Repr

/-- The fleet-level state of `App`: the car map (keyed, insertion-ordered),
the construction counter, and the current MQTT command-topic subscription
set. -/
structure FleetState where
  cars : List (String × CarObj)
  nextGen : Nat
  subs : List String
deriving DecidableEq, Repr

/-- JavaScript keyed assignment on the cars object. -/
def carsInsert (l : List (String × CarObj)) (k : String) (v : CarObj) :
    List (String × CarObj) :=
  if l.any (fun p => p.1 = k) then
    l.map (fun p => if p.1 = k then (k, v) else p)
  else l ++ [(k, v)]

/-- Keyed lookup on the cars object. -/
def carsLookup (l : List (String × CarObj)) (k : String) : Option CarObj :=
  match l.find? (fun p => p.1 = k) with
  | some p => some p.2
  | none => none

/-- The `vehicles.forEach` loop of `updateVehicles`: every listed vehicle id
gets a freshly constructed `VocCar` (`new VocCar(vehicle, self.voc)`),
also ids already present in the previous map. -/
def buildCarsAux (acc : List (String × CarObj)) :
    List String → Nat → List (String × CarObj) × Nat
  | [], g => (acc, g)
  | id :: rest, g => buildCarsAux (carsInsert acc id ⟨id, g⟩) rest (g + 1)

/-- The four command topics subscribed per vehicle id
(`subscribeForActions`). -/
def actionTopics (id : String) : List String :=
  ["volvooncall/" ++ id ++ "/startCharging",
   "volvooncall/" ++ id ++ "/delayCharging",
   "volvooncall/" ++ id ++ "/lock",
   "volvooncall/" ++ id ++ "/heater"]

/-- An MQTT subscribe (idempotent on the broker-side subscription set). -/
def subAdd (subs : List String) (t : String) : List String :=
  if t ∈ subs then subs else subs ++ [t]

/-- An MQTT unsubscribe. -/
def subRemove (subs : List String) (t : String) : List String :=
  subs.filter (fun x => x ≠ t)

/-- `App.subscribeForActions`: subscribe the four command topics of every
currently known vehicle. -/
def subscribeForActions (s : FleetState) : FleetState :=
  let subs := (s.cars.map Prod.fst).foldl
    (fun subs id => (actionTopics id).foldl subAdd subs) s.subs
  { s with subs := subs }

/-- `App.unsubscribeForActions`: unsubscribe the four command topics of each
given (removed) vehicle. -/
def unsubscribeForActions (s : FleetState) (cars : List CarObj) : FleetState :=
  let subs := cars.foldl
    (fun subs car => (actionTopics car.vehicleId).foldl subRemove subs) s.subs
  { s with subs := subs }

/-- The vehicles present in the old map but absent from the new listing, as
computed by `updateVehicles`. -/
def removedCarsOf (s : FleetState) (listing : List String) : List CarObj :=
  let newCars := (buildCarsAux [] listing s.nextGen).1
  let removedIds := (s.cars.map Prod.fst).filter
    (fun x => !((newCars.map Prod.fst).contains x))
  removedIds.filterMap (fun id => carsLookup s.cars id)

/-- `App.updateVehicles` followed by the synchronous `vehicles_updated`
handler.  Every listed vehicle gets a freshly constructed `VocCar`; the
handler first runs `removedCars.forEach(car => car.removeEventListeners())`,
and since no revision of `VocCar` defines `removeEventListeners`, a
non-empty removal list throws a `TypeError` before any
unsubscribe/resubscribe runs.  The map itself was already replaced before
the event was emitted; the thrown error is caught and logged by
`listVehiclesOnAccount`.  Returns the resulting state and the error, if one
was thrown. -/
def updateVehicles (s : FleetState) (listing : List String) :
    FleetState × Option String :=
  let bc := buildCarsAux [] listing s.nextGen
  let removedCars := removedCarsOf s listing
  let s1 : FleetState := { s with cars := bc.1, nextGen := bc.2 }
  if removedCars.isEmpty then
    (subscribeForActions (unsubscribeForActions s1 removedCars), none)
  else
    (s1, some ("TypeError: car.removeEventListeners is not a function"))

/-! ## `App` command routing (src/unnamed/part_000). -/

/-- The per-vehicle system states known to the message router, plus the
discovery registry. -/
structure AppState where
  cars : List (String × Sys)
  haDiscovered : List String
deriving Repr

/-- Keyed lookup on `App.cars` for message routing. -/
def appCarsLookup (l : List (String × Sys)) (k : String) : Option Sys :=
  match l.find? (fun p => p.1 = k) with
  | some p => some p.2
  | none => none

/-- Replace one car entry after a routed command ran on it. -/
def appCarsSet (l : List (String × Sys)) (k : String) (v : Sys) :
    List (String × Sys) :=
  l.map (fun p => if p.1 = k then (k, v) else p)

/-- The argument plumbing of `App.delayCharging`:
`cars[id].delayCharging(params.chargeLocation,
params.delayedCharging || true, params.startTime, params.stopTime)`. -/
def appDelayChargingCmd (cloud : Cloud) (params : Json) (s : Sys) : Sys :=
  carDelayCharging cloud (jsGet params ("chargeLocation"))
    (jsOr (jsGet params ("delayedCharging")) (Json.bool true))
    (jsGet params ("startTime")) (jsGet params ("stopTime")) s

/-- `App.setHeaterState` for a known vehicle: prefer the remote heater,
else preclimatization, else silently drop; unrecognized payloads are
logged and dropped. -/
def appSetHeaterState (cloud : Cloud) (sys : Sys) (payload : String) : Sys :=
  if payload = "ON" then
    if isRemoteHeaterSupported sys.car then carStartHeater cloud sys
    else if isPreClimatizationSupported sys.car then carStartPreclimatization cloud sys
    else sys
  else if payload = "OFF" then
    if isRemoteHeaterSupported sys.car then carStopHeater cloud sys
    else if isPreClimatizationSupported sys.car then carStopPreclimatization cloud sys
    else sys
  else sys

/-- `App.setLockState` for a known vehicle. -/
def appSetLockState (cloud : Cloud) (sys : Sys) (payload : String) : Sys :=
  if payload = "UNLOCK" then carUnlock cloud sys
  else if payload = "LOCK" then carLock cloud sys
  else sys

/-- `App.handleMessage` (and the command methods it dispatches to).
`jsonParse` models the external `JSON.parse`.  The topic is split on `/`;
destructuring a short split yields `undefined` parts, which index the cars
object as the key `"undefined"`.  Reading a method off `cars[id]` for an
unknown id throws a `TypeError`, and a `JSON.parse` failure throws; both
propagate out of `handleMessage` uncaught, so the result is an `Except`. -/
def handleMessage (cloud : Cloud) (jsonParse : String → Except String Json)
    (hassTopic : String) (st : AppState) (topic payload : String) :
    Except String AppState :=
  if topic = hassTopic then
    Except.ok { st with haDiscovered := [] }
  else
    let parts := splitSlash topic
    let carId := (parts.get? 1).getD ("undefined")
    let command := (parts.get? 2).getD ("undefined")
    if command = "startCharging" then
      match appCarsLookup st.cars carId with
      | none => Except.error ("TypeError: reading startCharging of undefined")
      | some sys =>
          Except.ok { st with cars := appCarsSet st.cars carId (carStartCharging cloud sys) }
    else if command = "delayCharging" then
      match jsonParse payload with
      | Except.error e => Except.error e
      | Except.ok params =>
          match appCarsLookup st.cars carId with
          | none => Except.error ("TypeError: reading delayCharging of undefined")
          | some sys =>
              Except.ok { st with cars := appCarsSet st.cars carId (appDelayChargingCmd cloud params sys) }
    else if command = "lock" then
      match appCarsLookup st.cars carId with
      | none =>
          if payload = "UNLOCK" ∨ payload = "LOCK" then
            Except.error ("TypeError: reading lock state method of undefined")
          else Except.ok st
      | some sys => Except.ok { st with cars := appCarsSet st.cars carId (appSetLockState cloud sys payload) }
    else if command = "heater" then
      match appCarsLookup st.cars carId with
      | none =>
          if payload = "ON" ∨ payload = "OFF" then
            Except.error ("TypeError: reading isRemoteHeaterSupported of undefined")
          else Except.ok st
      | some sys => Except.ok { st with cars := appCarsSet st.cars carId (appSetHeaterState cloud sys payload) }
    else Except.ok st

/-! ## Concrete fixtures used to evaluate the model on closed inputs. -/

/-- A trigonometry instance (the claims below never depend on the numeric
distance values). -/
def mathZero : MathLib :=
  { sin := fun _ => 0, cos := fun _ => 0, acos := fun _ => 0, pi := 0 }

/-- Attributes with no capability present. -/
def attrsNone : Attributes := ⟨none, none, none, none⟩

/-- A vehicle cache fresh out of the constructor field initializers. -/
def car0 : VocCarState :=
  { vehicleId := "V1", vehicleName := "car", chargeLocations := [],
    attributes := attrsNone, status := Json.undef, distances := [],
    position := ⟨none, none⟩ }

/-- A fresh system state around `car0`. -/
def sys0 : Sys := { car := car0, flag := false, calls := [], events := [] }

/-- A cloud whose every endpoint fails and whose invocations stay pending. -/
def cloudStub : Cloud :=
  { attributesData := Except.error ("offline")
    chargeLocationsData := Except.error ("offline")
    statusData := Except.error ("offline")
    positionData := Except.error ("offline")
    updateStatusResp := Except.error ("offline")
    startChargingResp := Except.error ("offline")
    lockResp := Except.error ("offline")
    unlockResp := Except.error ("offline")
    heaterStartResp := Except.error ("offline")
    heaterStopResp := Except.error ("offline")
    preclimStartResp := Except.error ("offline")
    preclimStopResp := Except.error ("offline")
    delayResp := Except.error ("offline")
    serviceStatus := fun _ _ => "Pending" }

/-- A cloud that accepts a delay-charging update as already matching (no
`service` reference), while `updatestatus` requests fail. -/
def cloudDelayImmediate : Cloud :=
  { cloudStub with delayResp := Except.ok ⟨none, Json.undef⟩ }

/-- A cloud that answers the delay-charging update with a service resource
reference and reports every invocation `Successful`. -/
def cloudDelayPolled : Cloud :=
  { cloudStub with
      delayResp := Except.ok ⟨some ("vehicles/V1/services/77"), Json.undef⟩,
      serviceStatus := fun _ _ => "Successful" }

/-- A cloud whose simple actions return invocation id `"9"` and whose polls
answer `Successful`, while `updatestatus` requests fail. -/
def cloudActionOk : Cloud :=
  { cloudStub with
      startChargingResp := Except.ok ⟨some ("9")⟩,
      lockResp := Except.ok ⟨some ("9")⟩,
      serviceStatus := fun _ _ => "Successful" }

/-- A cloud returning attributes without the position capability. -/
def cloudAttrsNoPos : Cloud :=
  { cloudStub with attributesData := Except.ok attrsNone }

/-- A stale distances entry, to make replacement observable. -/
def dOld : DistanceEntry :=
  { chargeLocationId := "old", chargeLocationName := "old", distanceToChargeLocation := 5,
    currentPositionLatitude := some 2, currentPositionLongitude := some 2 }

/-- A system with a truthy cached position, no charge location, and a stale
distances list. -/
def sysD : Sys :=
  { car := { car0 with position := ⟨some 1, some 1⟩, distances := [dOld] },
    flag := false, calls := [], events := [] }

/-- The fleet after a first refresh listing vehicles `A` and `B`. -/
def fleetA : FleetState := (updateVehicles ⟨[], 0, []⟩ ["A", "B"]).1

/-- The second refresh: the listing drops `A` and adds `C`. -/
def fleetB : FleetState × Option String := updateVehicles fleetA ["B", "C"]

/-- A `JSON.parse` collaborator that rejects every payload. -/
def jsonParseStub : String → Except String Json :=
  fun _ => Except.error ("SyntaxError: Unexpected token")

/-- A message-router state with no known vehicle. -/
def appState0 : AppState := ⟨[], []⟩

/-- A parsed delay-charging MQTT payload with every field present. -/
def params9 : Json :=
  Json.obj [("chargeLocation", Json.str ("123")),
    ("delayedCharging", Json.bool true),
    ("startTime", Json.str ("01:00")),
    ("stopTime", Json.str ("05:00"))]

/-- A parsed delay-charging MQTT payload without `delayedCharging`. -/
def params9b : Json :=
  Json.obj [("chargeLocation", Json.str ("123")),
    ("startTime", Json.str ("01:00")),
    ("stopTime", Json.str ("05:00"))]

/-- Two non-overlapping invocations: the first succeeds on its first poll,
the second stays pending and times out. -/
def invs10 : List (Option String × (Nat → String)) :=
  [(some ("a"), fun _ => "Successful"), (some ("b"), fun _ => "Pending")]

/-! ## Lemmas about the polling loop. -/

/-- Skipping `n` non-terminal polls advances the loop state without
terminating it. -/
theorem runForAux_skip (poll : Nat → String) (interval : Nat) (n : Nat) :
    ∀ (counter budget : Nat) (flag : Bool) (w : Nat), n ≤ budget →
      (∀ j, j < n → poll (counter + j) ≠ "Successful" ∧ poll (counter + j) ≠ "Failed") →
      runForAux poll interval counter budget flag w =
        runForAux poll interval (counter + n) (budget - n) flag (w + n * interval) := by
  induction n with
  | zero =>
      intro counter budget flag w _ _
      simp
  | succ n ih =>
      intro counter budget flag w hle hother
      obtain ⟨b, rfl⟩ : ∃ b, budget = b + 1 := ⟨budget - 1, by omega⟩
      have h0 := hother 0 (by omega)
      rw [Nat.add_zero] at h0
      have step : runForAux poll interval counter (b + 1) flag w =
          runForAux poll interval (counter + 1) b flag (w + interval) := by
        rw [runForAux]
        simp only [if_neg h0.1, if_neg h0.2]
      have e1 : counter + (n + 1) = (counter + 1) + n := by omega
      have e2 : b + 1 - (n + 1) = b - n := by omega
      have e3 : w + (n + 1) * interval = (w + interval) + n * interval := by ring
      rw [step, e1, e2, e3]
      exact ih (counter + 1) b flag (w + interval) (by omega) (fun j hj => by
        have h := hother (j + 1) (by omega)
        have e : counter + 1 + j = counter + (j + 1) := by omega
        rw [e]
        exact h)

/-- The loop issues at most `budget` further polls. -/
theorem runForAux_counter_le (poll : Nat → String) (interval : Nat) :
    ∀ (budget counter : Nat) (flag : Bool) (w : Nat),
      (runForAux poll interval counter budget flag w).counter ≤ counter + budget := by
  intro budget
  induction budget with
  | zero => intro counter flag w; simp [runForAux]
  | succ b ih =>
      intro counter flag w
      rw [runForAux]
      by_cases h1 : poll counter = "Successful"
      · simp only [if_pos h1]
        show counter + 1 ≤ counter + (b + 1)
        omega
      · by_cases h2 : poll counter = "Failed"
        · simp only [if_neg h1, if_pos h2]
          show counter + 1 ≤ counter + (b + 1)
          omega
        · simp only [if_neg h1, if_neg h2]
          have := ih (counter + 1) flag (w + interval)
          omega

/-- A first `Successful` at index `k` stops the loop at `k + 1` polls with
the success flag set. -/
theorem runFor_stop_success (poll : Nat → String) (interval : Nat) (flag : Bool)
    (k : Nat) (hk : k < 15)
    (hother : ∀ j, j < k → poll j ≠ "Successful" ∧ poll j ≠ "Failed")
    (hsucc : poll k = "Successful") :
    runFor poll interval flag = ⟨k + 1, (k + 1) * interval, true⟩ := by
  unfold runFor
  rw [runForAux_skip poll interval k 0 15 flag 0 (by omega)
    (fun j hj => by simpa using hother j hj)]
  obtain ⟨b, hb⟩ : ∃ b, 15 - k = b + 1 := ⟨15 - k - 1, by omega⟩
  simp only [Nat.zero_add]
  rw [hb, runForAux, if_pos hsucc, Nat.succ_mul]

/-- A first `Failed` at index `k` stops the loop at `k + 1` polls leaving
the flag as it was. -/
theorem runFor_stop_failed (poll : Nat → String) (interval : Nat) (flag : Bool)
    (k : Nat) (hk : k < 15)
    (hother : ∀ j, j < k → poll j ≠ "Successful" ∧ poll j ≠ "Failed")
    (hfail : poll k = "Failed") :
    runFor poll interval flag = ⟨k + 1, (k + 1) * interval, flag⟩ := by
  unfold runFor
  rw [runForAux_skip poll interval k 0 15 flag 0 (by omega)
    (fun j hj => by simpa using hother j hj)]
  obtain ⟨b, hb⟩ : ∃ b, 15 - k = b + 1 := ⟨15 - k - 1, by omega⟩
  simp only [Nat.zero_add]
  have hns : poll k ≠ "Successful" := by
    rw [hfail]; intro h; exact absurd h (by decide)
  rw [hb, runForAux, if_neg hns, if_pos hfail, Nat.succ_mul]

/-- With no terminal status in the first 15 polls the loop exhausts its
budget: 15 polls and an unchanged flag. -/
theorem runFor_timeout (poll : Nat → String) (interval : Nat) (flag : Bool)
    (hother : ∀ j, j < 15 → poll j ≠ "Successful" ∧ poll j ≠ "Failed") :
    runFor poll interval flag = ⟨15, 15 * interval, flag⟩ := by
  unfold runFor
  rw [runForAux_skip poll interval 15 0 15 flag 0 (by omega)
    (fun j hj => by simpa using hother j hj)]
  simp [runForAux]

/-- C1: the remote-command polling loop polls at most 15 times at a fixed
1000 ms interval; the first `Successful` response stops polling with the
success flag set, the first `Failed` response stops polling immediately
without setting it, any other status continues; for the sequence
`[Pending, Pending, Successful]` exactly 3 polls occur and the invocation
resolves successfully, and for 15 consecutive `Pending` responses polling
stops after 15 polls with no success flag set. -/
theorem c1_remote_polling :
    (∀ poll flag, (runFor poll 1000 flag).counter ≤ 15) ∧
    (∀ poll k, k < 15 →
      (∀ j, j < k → poll j ≠ "Successful" ∧ poll j ≠ "Failed") →
      (poll k = "Successful" → runFor poll 1000 false = ⟨k + 1, (k + 1) * 1000, true⟩) ∧
      (poll k = "Failed" → runFor poll 1000 false = ⟨k + 1, (k + 1) * 1000, false⟩)) ∧
    (∀ poll, (∀ j, j < 15 → poll j ≠ "Successful" ∧ poll j ≠ "Failed") →
      runFor poll 1000 false = ⟨15, 15000, false⟩) ∧
    awaitSuccessfulServiceInvocation false (some ("svc"))
      (fun i => if i < 2 then "Pending" else "Successful") = Except.ok ⟨true, false, 3, 3000⟩ ∧
    awaitSuccessfulServiceInvocation false (some ("svc")) (fun _ => "Pending") =
      Except.ok ⟨false, false, 15, 15000⟩ := by
  refine ⟨?_, ?_, ?_, rfl, rfl⟩
  · intro poll flag
    have := runForAux_counter_le poll 1000 15 0 flag 0
    simpa using this
  · intro poll k hk hother
    exact ⟨fun h => runFor_stop_success poll 1000 false k hk hother h,
           fun h => runFor_stop_failed poll 1000 false k hk hother h⟩
  · intro poll h
    have := runFor_timeout poll 1000 false h
    simpa using this

/-- Witness for C1 at concrete inputs. -/
theorem c1_remote_polling_witness :
    runFor (fun i => if i < 2 then "Pending" else "Successful") 1000 false = ⟨3, 3000, true⟩ ∧
    runFor (fun _ => "Pending") 1000 false = ⟨15, 15000, false⟩ := by
  constructor
  · have h := (c1_remote_polling.2.1 (fun i => if i < 2 then "Pending" else "Successful") 2
      (by decide) (fun j hj => by
        have : j = 0 ∨ j = 1 := by omega
        rcases this with rfl | rfl
        · exact ⟨by decide, by decide⟩
        · exact ⟨by decide, by decide⟩)).1 (by decide)
    simpa using h
  · have h := c1_remote_polling.2.2.1 (fun _ => "Pending")
      (fun j hj => ⟨by simp, by simp⟩)
    simpa using h

/-- C8: when polling is required, a missing/undefined invocation id makes
`awaitSuccessfulServiceInvocation` reject immediately, with zero polls
issued (the system state, and with it the call trace, is untouched). -/
theorem c8_missing_service_id :
    (∀ flag poll sid, optStrFalsy sid = true →
      awaitSuccessfulServiceInvocation flag sid poll = Except.error ("ServiceId is null!")) ∧
    (∀ cloud vid sid s, optStrFalsy sid = true →
      awaitSvcSys cloud vid sid s = (Except.error ("ServiceId is null!"), s)) := by
  constructor
  · intro flag poll sid h
    unfold awaitSuccessfulServiceInvocation
    rw [if_pos h]
  · intro cloud vid sid s h
    unfold awaitSvcSys
    rw [if_pos h]

/-- Witness for C8 at the undefined invocation id. -/
theorem c8_missing_service_id_witness :
    awaitSuccessfulServiceInvocation false none (fun _ => "Pending") =
      Except.error ("ServiceId is null!") ∧
    awaitSvcSys cloudStub ("V1") none sys0 = (Except.error ("ServiceId is null!"), sys0) :=
  ⟨c8_missing_service_id.1 false (fun _ => "Pending") none rfl,
   c8_missing_service_id.2 cloudStub ("V1") none sys0 rfl⟩

/-- Every resolution of `awaitSuccessfulServiceInvocation` leaves the
success flag reset. -/
theorem await_flagAfter (flag : Bool) (sid : Option String) (poll : Nat → String)
    (out : AwaitOut) (h : awaitSuccessfulServiceInvocation flag sid poll = Except.ok out) :
    out.flagAfter = false := by
  unfold awaitSuccessfulServiceInvocation at h
  by_cases hf : optStrFalsy sid = true
  · rw [if_pos hf] at h
    cases h
  · rw [if_neg hf] at h
    cases h
    rfl

/-- C10: `_serviceInvocationSuccess` is false whenever
`awaitSuccessfulServiceInvocation` resolves (read, then reset, before the
result is returned), so over any sequence of non-overlapping invocations
each outcome is exactly what the polls of that invocation produce starting
from a false flag: a success recorded by one invocation can never make a
later timed-out or failed invocation report success. -/
theorem c10_flag_reset_independence :
    ∀ invs : List (Option String × (Nat → String)),
      (runInvocations false invs).1 =
        invs.map (fun inv => awaitSuccessfulServiceInvocation false inv.1 inv.2) ∧
      (runInvocations false invs).2 = false ∧
      ∀ r ∈ (runInvocations false invs).1, ∀ out, r = Except.ok out → out.flagAfter = false := by
  intro invs
  induction invs with
  | nil =>
      refine ⟨rfl, rfl, ?_⟩
      intro r hr
      simp [runInvocations] at hr
  | cons p rest ih =>
      obtain ⟨sid, poll⟩ := p
      cases haw : awaitSuccessfulServiceInvocation false sid poll with
      | error e =>
          refine ⟨?_, ?_, ?_⟩
          · simp only [runInvocations, haw, List.map_cons]
            rw [ih.1]
          · simp only [runInvocations, haw]
            exact ih.2.1
          · simp only [runInvocations, haw]
            intro r hr out hout
            rcases List.mem_cons.mp hr with rfl | hr2
            · cases hout
            · exact ih.2.2 r hr2 out hout
      | ok out0 =>
          have hfa : out0.flagAfter = false := await_flagAfter false sid poll out0 haw
          refine ⟨?_, ?_, ?_⟩
          · simp only [runInvocations, haw, hfa, List.map_cons]
            rw [ih.1]
          · simp only [runInvocations, haw, hfa]
            exact ih.2.1
          · simp only [runInvocations, haw, hfa]
            intro r hr out hout
            rcases List.mem_cons.mp hr with rfl | hr2
            · cases hout
              exact hfa
            · exact ih.2.2 r hr2 out hout

/-- Witness for C10: a successful invocation followed by an all-pending one;
the second still times out with no success reported, and its resolution
leaves the flag false. -/
theorem c10_flag_reset_independence_witness :
    (runInvocations false invs10).1 =
      [Except.ok ⟨true, false, 1, 1000⟩, Except.ok ⟨false, false, 15, 15000⟩] ∧
    (runInvocations false invs10).2 = false ∧
    (⟨false, false, 15, 15000⟩ : AwaitOut).flagAfter = false := by
  have h := c10_flag_reset_independence invs10
  refine ⟨h.1.trans rfl, h.2.1, ?_⟩
  exact h.2.2 (Except.ok ⟨false, false, 15, 15000⟩)
    (by rw [h.1]; exact List.Mem.tail _ (List.Mem.head _))
    ⟨false, false, 15, 15000⟩ rfl

/-- C7: when the delay-charging submission returns an immediate terminal
result with no `service` reference, the invocation resolves immediately
with that result and no poll is issued (the call trace gains only the PUT);
when the response does carry a `service` reference, the invocation id used
for polling is the last path segment of that reference. -/
theorem c7_delay_submission :
    (∀ cloud id payload s d, cloud.delayResp = Except.ok d →
      optStrFalsy d.service = true →
      vocDelayChargingSys cloud id payload s =
        (Except.ok (DelayResult.immediate d.service d.body),
         { s with calls := s.calls ++ [CloudReq.putDelayCharging s.car.vehicleId id payload] })) ∧
    (∀ cloud id payload s d url, cloud.delayResp = Except.ok d →
      d.service = some url → optStrFalsy (some url) = false →
      optStrFalsy (some (lastPathSegment url)) = false →
      vocDelayChargingSys cloud id payload s =
        (Except.ok (DelayResult.invocation (lastPathSegment url)
            (runFor (cloud.serviceStatus (lastPathSegment url)) 1000 s.flag).flag),
         { s with flag := false,
                  calls := (s.calls ++ [CloudReq.putDelayCharging s.car.vehicleId id payload]) ++
                    List.replicate
                      (runFor (cloud.serviceStatus (lastPathSegment url)) 1000 s.flag).counter
                      (CloudReq.getServiceStatus s.car.vehicleId (lastPathSegment url)) })) := by
  constructor
  · intro cloud id payload s d hd hserv
    unfold vocDelayChargingSys
    rw [hd]
    dsimp only
    rw [if_pos hserv]
  · intro cloud id payload s d url hd hurl hne hsegne
    unfold vocDelayChargingSys
    rw [hd]
    dsimp only
    rw [hurl]
    rw [if_neg (by simp [hne])]
    unfold awaitSvcSys
    rw [if_neg (by simp [hsegne])]
    rfl

/-- Witness for C7 at concrete clouds. -/
theorem c7_delay_submission_witness :
    vocDelayChargingSys cloudDelayImmediate (Json.str ("5")) Json.undef sys0 =
      (Except.ok (DelayResult.immediate none Json.undef),
       { sys0 with calls := [CloudReq.putDelayCharging ("V1") (Json.str ("5")) Json.undef] }) ∧
    vocDelayChargingSys cloudDelayPolled (Json.str ("5")) Json.undef sys0 =
      (Except.ok (DelayResult.invocation ("77") true),
       { sys0 with flag := false,
                   calls := [CloudReq.putDelayCharging ("V1") (Json.str ("5")) Json.undef,
                     CloudReq.getServiceStatus ("V1") ("77")] }) := by
  constructor
  · exact (c7_delay_submission.1 cloudDelayImmediate (Json.str ("5")) Json.undef sys0
      ⟨none, Json.undef⟩ rfl rfl).trans rfl
  · exact (c7_delay_submission.2 cloudDelayPolled (Json.str ("5")) Json.undef sys0
      ⟨some ("vehicles/V1/services/77"), Json.undef⟩ ("vehicles/V1/services/77")
      rfl rfl rfl rfl).trans rfl

/-! ## Preservation lemmas for the traced operations. -/

/-- `awaitSvcSys` never touches the vehicle cache or the events, and only
appends invocation-status polls to the call trace. -/
theorem awaitSvcSys_snd (cloud : Cloud) (vid : String) (sid : Option String) (s : Sys) :
    (awaitSvcSys cloud vid sid s).2.car = s.car ∧
    (awaitSvcSys cloud vid sid s).2.events = s.events ∧
    ∃ t, (awaitSvcSys cloud vid sid s).2.calls = s.calls ++ t ∧
      ∀ c ∈ t, ∃ sid2, c = CloudReq.getServiceStatus vid sid2 := by
  unfold awaitSvcSys
  by_cases h : optStrFalsy sid = true
  · rw [if_pos h]
    exact ⟨rfl, rfl, [], by simp, by simp⟩
  · rw [if_neg h]
    refine ⟨rfl, rfl, _, rfl, ?_⟩
    intro c hc
    rw [List.eq_of_mem_replicate hc]
    exact ⟨sid.getD (""), rfl⟩

/-- `getVehicleStatusFromCloud` issues exactly one `getStatus` call. -/
theorem carGetStatusCloud_calls (cloud : Cloud) (s : Sys) :
    (carGetVehicleStatusFromCloud cloud s).calls =
      s.calls ++ [CloudReq.getStatus s.car.vehicleId] := by
  unfold carGetVehicleStatusFromCloud
  cases cloud.statusData <;> rfl

/-- `refreshVehicleStatusFromCar` always posts `updatestatus` first,
whatever the cloud answers. -/
theorem carRefresh_posts (cloud : Cloud) (s : Sys) :
    ∃ t, (carRefreshVehicleStatusFromCar cloud s).calls =
      s.calls ++ CloudReq.postUpdateStatus s.car.vehicleId :: t := by
  unfold carRefreshVehicleStatusFromCar vocSimpleAction
  cases hresp : cloud.updateStatusResp with
  | error e =>
      exact ⟨[], by simp⟩
  | ok r =>
      dsimp only
      rcases haw : awaitSvcSys cloud s.car.vehicleId r.customerServiceId
          { s with calls := s.calls ++ [CloudReq.postUpdateStatus s.car.vehicleId] } with ⟨res, s2⟩
      obtain ⟨hcar, hev, t2, hcalls, ht2⟩ := awaitSvcSys_snd cloud s.car.vehicleId
        r.customerServiceId
        { s with calls := s.calls ++ [CloudReq.postUpdateStatus s.car.vehicleId] }
      rw [haw] at hcalls hcar
      dsimp only at hcalls hcar ⊢
      cases res with
      | error e =>
          refine ⟨t2, ?_⟩
          simpa using hcalls
      | ok success =>
          cases success with
          | false =>
              refine ⟨t2, ?_⟩
              show s2.calls = s.calls ++ CloudReq.postUpdateStatus s.car.vehicleId :: t2
              simpa using hcalls
          | true =>
              refine ⟨t2 ++ [CloudReq.getStatus s2.car.vehicleId], ?_⟩
              show (carGetVehicleStatusFromCloud cloud s2).calls = _
              rw [carGetStatusCloud_calls, hcalls]
              simp

/-- `VOC.prototype.delayCharging` leaves the vehicle cache alone and adds to
the call trace the PUT followed only by invocation-status polls. -/
theorem vocDelayChargingSys_snd (cloud : Cloud) (id payload : Json) (s : Sys) :
    (vocDelayChargingSys cloud id payload s).2.car = s.car ∧
    ∃ t, (vocDelayChargingSys cloud id payload s).2.calls =
        s.calls ++ CloudReq.putDelayCharging s.car.vehicleId id payload :: t ∧
      ∀ c ∈ t, ∃ sid, c = CloudReq.getServiceStatus s.car.vehicleId sid := by
  unfold vocDelayChargingSys
  cases hd : cloud.delayResp with
  | error e =>
      exact ⟨rfl, [], by simp, by simp⟩
  | ok d =>
      dsimp only
      by_cases hserv : optStrFalsy d.service = true
      · rw [if_pos hserv]
        exact ⟨rfl, [], by simp, by simp⟩
      · rw [if_neg hserv]
        rcases haw : awaitSvcSys cloud s.car.vehicleId
            (some (lastPathSegment (d.service.getD (""))))
            { s with calls := s.calls ++ [CloudReq.putDelayCharging s.car.vehicleId id payload] }
            with ⟨res, s2⟩
        obtain ⟨hcar, hev, t2, hcalls, ht2⟩ := awaitSvcSys_snd cloud s.car.vehicleId
          (some (lastPathSegment (d.service.getD (""))))
          { s with calls := s.calls ++ [CloudReq.putDelayCharging s.car.vehicleId id payload] }
        rw [haw] at hcalls hcar
        dsimp only at hcalls hcar
        cases res with
        | error e =>
            exact ⟨hcar, t2, by simpa using hcalls, ht2⟩
        | ok rr =>
            exact ⟨hcar, t2, by simpa using hcalls, ht2⟩

/-- `refreshVehicleStatusFromCar` puts its `updatestatus` POST on the
trace. -/
theorem post_mem_refresh (cloud : Cloud) (s : Sys) :
    CloudReq.postUpdateStatus s.car.vehicleId ∈ (carRefreshVehicleStatusFromCar cloud s).calls := by
  obtain ⟨t, ht⟩ := carRefresh_posts cloud s
  rw [ht]
  simp

/-- Every simple action whose submission and invocation polling resolve
triggers the car-side status refresh. -/
theorem carSimpleAction_posts (cloud : Cloud) (req : CloudReq)
    (resp : Except String UpdateStatusResp) (ev : CarEvent) (s : Sys)
    (r : UpdateStatusResp) (hresp : resp = Except.ok r)
    (hsid : optStrFalsy r.customerServiceId = false) :
    CloudReq.postUpdateStatus s.car.vehicleId ∈ (carSimpleAction cloud req resp ev s).calls := by
  unfold carSimpleAction vocSimpleAction
  rw [hresp]
  dsimp only
  unfold awaitSvcSys
  rw [if_neg (by simp [hsid])]
  dsimp only
  exact post_mem_refresh cloud _

/-- C3: when a `delayCharging` submission resolves, the vehicle follows up
with `getVehicleStatusFromCloud()` directly — a cloud-cache fetch appears
on the trace and no `updatestatus` (car-side refresh) is ever issued by it —
while every other action method (`startCharging`, `lock`, `unlock`,
`startHeater`, `stopHeater`, `startPreclimatization`,
`stopPreclimatization`) triggers `refreshVehicleStatusFromCar()` on
success, observable as an `updatestatus` POST on the trace. -/
theorem c3_success_follow_up :
    (∀ cloud id dc st sp s res s1,
      vocDelayChargingSys cloud id (delayChargingCloudPayload dc st sp) s =
        (Except.ok res, s1) →
      CloudReq.getStatus s.car.vehicleId ∈ (carDelayCharging cloud id dc st sp s).calls ∧
      (∀ v, CloudReq.postUpdateStatus v ∉ s.calls →
        CloudReq.postUpdateStatus v ∉ (carDelayCharging cloud id dc st sp s).calls)) ∧
    (∀ cloud s r, cloud.startChargingResp = Except.ok r →
      optStrFalsy r.customerServiceId = false →
      CloudReq.postUpdateStatus s.car.vehicleId ∈ (carStartCharging cloud s).calls) ∧
    (∀ cloud s r, cloud.lockResp = Except.ok r →
      optStrFalsy r.customerServiceId = false →
      CloudReq.postUpdateStatus s.car.vehicleId ∈ (carLock cloud s).calls) ∧
    (∀ cloud s r, cloud.unlockResp = Except.ok r →
      optStrFalsy r.customerServiceId = false →
      CloudReq.postUpdateStatus s.car.vehicleId ∈ (carUnlock cloud s).calls) ∧
    (∀ cloud s r, cloud.heaterStartResp = Except.ok r →
      optStrFalsy r.customerServiceId = false →
      CloudReq.postUpdateStatus s.car.vehicleId ∈ (carStartHeater cloud s).calls) ∧
    (∀ cloud s r, cloud.heaterStopResp = Except.ok r →
      optStrFalsy r.customerServiceId = false →
      CloudReq.postUpdateStatus s.car.vehicleId ∈ (carStopHeater cloud s).calls) ∧
    (∀ cloud s r, cloud.preclimStartResp = Except.ok r →
      optStrFalsy r.customerServiceId = false →
      CloudReq.postUpdateStatus s.car.vehicleId ∈ (carStartPreclimatization cloud s).calls) ∧
    (∀ cloud s r, cloud.preclimStopResp = Except.ok r →
      optStrFalsy r.customerServiceId = false →
      CloudReq.postUpdateStatus s.car.vehicleId ∈ (carStopPreclimatization cloud s).calls) := by
  refine ⟨?_, ?_, ?_, ?_, ?_, ?_, ?_, ?_⟩
  · intro cloud id dc st sp s res s1 hvdc
    have hred : carDelayCharging cloud id dc st sp s =
        carGetVehicleStatusFromCloud cloud
          { s1 with events := s1.events ++ [CarEvent.delay_charging_complete] } := by
      unfold carDelayCharging
      dsimp only
      rw [hvdc]
    obtain ⟨hcar, t, hcalls, ht⟩ :=
      vocDelayChargingSys_snd cloud id (delayChargingCloudPayload dc st sp) s
    rw [hvdc] at hcalls hcar
    dsimp only at hcalls hcar
    constructor
    · rw [hred, carGetStatusCloud_calls]
      dsimp only
      rw [hcar]
      simp
    · intro v hv
      rw [hred, carGetStatusCloud_calls]
      dsimp only
      rw [hcalls]
      intro hmem
      simp only [List.mem_append, List.mem_cons, List.mem_singleton,
        List.not_mem_nil] at hmem
      rcases hmem with (h1 | (h2 | h3)) | h4
      · exact hv h1
      · exact CloudReq.noConfusion h2
      · obtain ⟨sid2, hc⟩ := ht _ h3
        exact CloudReq.noConfusion hc
      · rcases h4 with h4 | h4
        · exact CloudReq.noConfusion h4
        · exact h4
  · intro cloud s r h1 h2
    exact carSimpleAction_posts cloud _ _ _ s r h1 h2
  · intro cloud s r h1 h2
    exact carSimpleAction_posts cloud _ _ _ s r h1 h2
  · intro cloud s r h1 h2
    exact carSimpleAction_posts cloud _ _ _ s r h1 h2
  · intro cloud s r h1 h2
    exact carSimpleAction_posts cloud _ _ _ s r h1 h2
  · intro cloud s r h1 h2
    exact carSimpleAction_posts cloud _ _ _ s r h1 h2
  · intro cloud s r h1 h2
    exact carSimpleAction_posts cloud _ _ _ s r h1 h2
  · intro cloud s r h1 h2
    exact carSimpleAction_posts cloud _ _ _ s r h1 h2

/-- Witness for C3 at concrete clouds. -/
theorem c3_success_follow_up_witness :
    CloudReq.getStatus sys0.car.vehicleId ∈
      (carDelayCharging cloudDelayImmediate (Json.str ("5")) (Json.bool true)
        (Json.str ("01:00")) (Json.str ("05:00")) sys0).calls ∧
    CloudReq.postUpdateStatus ("V1") ∉
      (carDelayCharging cloudDelayImmediate (Json.str ("5")) (Json.bool true)
        (Json.str ("01:00")) (Json.str ("05:00")) sys0).calls ∧
    CloudReq.postUpdateStatus sys0.car.vehicleId ∈ (carStartCharging cloudActionOk sys0).calls ∧
    CloudReq.postUpdateStatus sys0.car.vehicleId ∈ (carLock cloudActionOk sys0).calls := by
  have h1 := c3_success_follow_up.1 cloudDelayImmediate (Json.str ("5")) (Json.bool true)
    (Json.str ("01:00")) (Json.str ("05:00")) sys0
    (DelayResult.immediate none Json.undef)
    { sys0 with calls := [CloudReq.putDelayCharging ("V1") (Json.str ("5"))
        (delayChargingCloudPayload (Json.bool true) (Json.str ("01:00")) (Json.str ("05:00")))] }
    rfl
  exact ⟨h1.1, h1.2 ("V1") (by simp [sys0]),
    c3_success_follow_up.2.1 cloudActionOk sys0 ⟨some ("9")⟩ rfl rfl,
    c3_success_follow_up.2.2.1 cloudActionOk sys0 ⟨some ("9")⟩ rfl rfl⟩

/-- C4 counterexample: with a truthy cached position and zero cached charge
locations, `updateDistances` is not a no-op — it replaces the stale
distances list with the empty list and emits `distances_updated` — so the
claim that it does nothing unless at least one charge location is cached is
false of the code. -/
theorem c4_no_op_claim_counterexample :
    sysD.car.chargeLocations = [] ∧
    truthyOptRat sysD.car.position.latitude = true ∧
    truthyOptRat sysD.car.position.longitude = true ∧
    (carUpdateDistancesSys mathZero sysD).events = [CarEvent.distances_updated] ∧
    (carUpdateDistancesSys mathZero sysD).car.distances = [] ∧
    sysD.car.distances = [dOld] ∧
    carUpdateDistancesSys mathZero sysD ≠ sysD := by
  refine ⟨by decide, by decide, by decide, by decide, by decide, by decide, ?_⟩
  intro h
  have h2 : ([CarEvent.distances_updated] : List CarEvent) = [] := congrArg Sys.events h
  exact absurd h2 (by decide)

/-- C4 amended: `updateDistances` is a no-op (state untouched, no event)
unless the cached position has truthy latitude and longitude; when it does,
the distances list is replaced wholesale with exactly one entry per cached
charge location — possibly zero entries — and `distances_updated` is
emitted even when no charge location is cached, the source guarding only on
the position. -/
theorem c4_update_distances_amended (m : MathLib) (s : Sys) :
    ((truthyOptRat s.car.position.latitude = false ∨
      truthyOptRat s.car.position.longitude = false) →
      carUpdateDistancesSys m s = s) ∧
    (truthyOptRat s.car.position.latitude = true →
      truthyOptRat s.car.position.longitude = true →
      (carUpdateDistancesSys m s).car.distances.map (fun d => d.chargeLocationId) =
        s.car.chargeLocations.map (fun e => e.id) ∧
      (carUpdateDistancesSys m s).car.distances.length = s.car.chargeLocations.length ∧
      (carUpdateDistancesSys m s).events = s.events ++ [CarEvent.distances_updated] ∧
      (carUpdateDistancesSys m s).calls = s.calls ∧
      (carUpdateDistancesSys m s).car.chargeLocations = s.car.chargeLocations ∧
      (carUpdateDistancesSys m s).car.position = s.car.position) := by
  constructor
  · intro h
    unfold carUpdateDistancesSys
    rcases h with h | h <;> rw [if_pos (by simp [h])]
  · intro h1 h2
    unfold carUpdateDistancesSys
    rw [if_neg (by simp [h1, h2])]
    refine ⟨?_, ?_, rfl, rfl, rfl, rfl⟩
    · dsimp only
      rw [List.map_map]
      rfl
    · dsimp only
      rw [List.length_map]

/-- Witness for C4 amended at concrete states. -/
theorem c4_update_distances_amended_witness :
    carUpdateDistancesSys mathZero sys0 = sys0 ∧
    (carUpdateDistancesSys mathZero sysD).events =
      sysD.events ++ [CarEvent.distances_updated] := by
  constructor
  · exact (c4_update_distances_amended mathZero sys0).1 (Or.inl rfl)
  · exact ((c4_update_distances_amended mathZero sysD).2 (by decide) (by decide)).2.2.1

/-- `updateDistances` issues no cloud call and leaves the attributes
alone. -/
theorem carUpdateDistances_frame (m : MathLib) (s : Sys) :
    (carUpdateDistancesSys m s).calls = s.calls ∧
    (carUpdateDistancesSys m s).car.attributes = s.car.attributes := by
  unfold carUpdateDistancesSys
  by_cases h : (!truthyOptRat s.car.position.latitude ||
      !truthyOptRat s.car.position.longitude) = true
  · rw [if_pos h]
    exact ⟨rfl, rfl⟩
  · rw [if_neg h]
    exact ⟨rfl, rfl⟩

/-- `getVehicleChargeLocations` leaves the attributes alone and never issues
a position call. -/
theorem carGetChargeLocations_frame (m : MathLib) (cloud : Cloud) (s : Sys) :
    (carGetVehicleChargeLocations m cloud s).car.attributes = s.car.attributes ∧
    ∀ v, CloudReq.getPosition v ∈ (carGetVehicleChargeLocations m cloud s).calls →
      CloudReq.getPosition v ∈ s.calls := by
  unfold carGetVehicleChargeLocations
  by_cases hg : (!isChargingSupported s.car) = true
  · rw [if_pos hg]
    exact ⟨rfl, fun v h => h⟩
  · rw [if_neg hg]
    cases hc : cloud.chargeLocationsData with
    | error e =>
        refine ⟨rfl, fun v h => ?_⟩
        simp only [List.mem_append, List.mem_singleton] at h
        rcases h with h | h
        · exact h
        · exact CloudReq.noConfusion h
    | ok locations =>
        refine ⟨?_, fun v h => ?_⟩
        · rw [(carUpdateDistances_frame m _).2]
        · rw [(carUpdateDistances_frame m _).1] at h
          simp only [List.mem_append, List.mem_singleton] at h
          rcases h with h | h
          · exact h
          · exact CloudReq.noConfusion h

/-- C5 counterexample: `getVehiclePosition` itself carries no capability
guard — called on a vehicle without `carLocatorSupported` it still issues
the position cloud call — so the claim that the operation is a no-op for
such vehicles is false of the method. -/
theorem c5_position_claim_counterexample :
    isPositionSupported sys0.car = false ∧
    (carGetVehiclePosition mathZero cloudStub sys0).calls =
      [CloudReq.getPosition ("V1")] ∧
    sys0.calls = [] ∧
    carGetVehiclePosition mathZero cloudStub sys0 ≠ sys0 := by
  refine ⟨rfl, rfl, rfl, ?_⟩
  intro h
  have h2 : (1 : Nat) = 0 := congrArg (fun x : Sys => List.length x.calls) h
  exact absurd h2 (by decide)

/-- C5 amended: `getVehiclePosition` always issues exactly one position
call; the capability gate lives at its call sites — the position poller
skips unsupported vehicles entirely, and the `attributes_updated` listener
issues no position call when the freshly fetched attributes lack
`carLocatorSupported`. -/
theorem c5_position_gate_amended :
    (∀ m cloud s, (carGetVehiclePosition m cloud s).calls =
      s.calls ++ [CloudReq.getPosition s.car.vehicleId]) ∧
    (∀ m cloud s, isPositionSupported s.car = false →
      positionPollerTick m cloud s = s) ∧
    (∀ m cloud s a, cloud.attributesData = Except.ok a →
      truthyOptBool a.carLocatorSupported = false →
      ∀ v, CloudReq.getPosition v ∈ (carGetVehicleAttributes m cloud s).calls →
        CloudReq.getPosition v ∈ s.calls) := by
  refine ⟨?_, ?_, ?_⟩
  · intro m cloud s
    unfold carGetVehiclePosition
    cases cloud.positionData with
    | error e => rfl
    | ok pos => exact (carUpdateDistances_frame m _).1
  · intro m cloud s h
    unfold positionPollerTick
    rw [if_neg (by simp [h])]
  · intro m cloud s a ha hpos v hmem
    unfold carGetVehicleAttributes at hmem
    rw [ha] at hmem
    dsimp only at hmem
    split at hmem
    case isTrue hch =>
      split at hmem
      case isTrue hsup =>
        exfalso
        unfold isPositionSupported at hsup
        rw [(carGetChargeLocations_frame m cloud _).1] at hsup
        dsimp only at hsup
        rw [hpos] at hsup
        exact Bool.noConfusion hsup
      case isFalse hsup =>
        have h2 := (carGetChargeLocations_frame m cloud _).2 v hmem
        dsimp only at h2
        simp only [List.mem_append, List.mem_singleton] at h2
        rcases h2 with h2 | h2
        · exact h2
        · exact CloudReq.noConfusion h2
    case isFalse hch =>
      split at hmem
      case isTrue hsup =>
        exfalso
        unfold isPositionSupported at hsup
        dsimp only at hsup
        rw [hpos] at hsup
        exact Bool.noConfusion hsup
      case isFalse hsup =>
        dsimp only at hmem
        simp only [List.mem_append, List.mem_singleton] at hmem
        rcases hmem with h2 | h2
        · exact h2
        · exact CloudReq.noConfusion h2

/-- Witness for C5 amended at concrete states. -/
theorem c5_position_gate_amended_witness :
    (carGetVehiclePosition mathZero cloudStub sys0).calls =
      sys0.calls ++ [CloudReq.getPosition sys0.car.vehicleId] ∧
    positionPollerTick mathZero cloudStub sys0 = sys0 ∧
    CloudReq.getPosition ("V1") ∉
      (carGetVehicleAttributes mathZero cloudAttrsNoPos sys0).calls := by
  refine ⟨c5_position_gate_amended.1 mathZero cloudStub sys0,
    c5_position_gate_amended.2.1 mathZero cloudStub sys0 rfl, ?_⟩
  intro hmem
  have h := c5_position_gate_amended.2.2 mathZero cloudAttrsNoPos sys0 attrsNone
    rfl rfl ("V1") hmem
  simp [sys0] at h

/-! ## Lemmas about the fleet refresh. -/

/-- Membership through a keyed assignment. -/
theorem mem_carsInsert (l : List (String × CarObj)) (k : String) (v : CarObj)
    (p : String × CarObj) (hp : p ∈ carsInsert l k v) : p ∈ l ∨ p = (k, v) := by
  unfold carsInsert at hp
  by_cases h : l.any (fun q => q.1 = k) = true
  · rw [if_pos h] at hp
    obtain ⟨q, hq, hqe⟩ := List.mem_map.mp hp
    by_cases h2 : q.1 = k
    · rw [if_pos h2] at hqe
      exact Or.inr hqe.symm
    · rw [if_neg h2] at hqe
      exact Or.inl (hqe ▸ hq)
  · rw [if_neg h] at hp
    rcases List.mem_append.mp hp with h1 | h1
    · exact Or.inl h1
    · exact Or.inr (List.mem_singleton.mp h1)

/-- Every entry built by the `forEach` loop is either inherited or carries a
generation at least the starting counter. -/
theorem buildCarsAux_gen (listing : List String) :
    ∀ (acc : List (String × CarObj)) (g : Nat) (p : String × CarObj),
      p ∈ (buildCarsAux acc listing g).1 → p ∈ acc ∨ g ≤ p.2.gen := by
  induction listing with
  | nil =>
      intro acc g p hp
      exact Or.inl hp
  | cons id rest ih =>
      intro acc g p hp
      rcases ih (carsInsert acc id ⟨id, g⟩) (g + 1) p hp with h | h
      · rcases mem_carsInsert acc id ⟨id, g⟩ p h with h2 | h2
        · exact Or.inl h2
        · right
          rw [h2]
      · right
        omega

/-- The refreshed car map is the freshly built one, in both handler
outcomes. -/
theorem updateVehicles_cars (s : FleetState) (listing : List String) :
    ((updateVehicles s listing).1).cars = (buildCarsAux [] listing s.nextGen).1 := by
  unfold updateVehicles
  by_cases h : (removedCarsOf s listing).isEmpty = true
  · rw [if_pos h]
    rfl
  · rw [if_neg h]

/-- An MQTT subscribe preserves previous subscriptions. -/
theorem subAdd_mem (subs : List String) (t u : String) (h : t ∈ subs) :
    t ∈ subAdd subs u := by
  unfold subAdd
  split
  · exact h
  · exact List.mem_append_left _ h

/-- An MQTT subscribe establishes its own topic. -/
theorem subAdd_self (subs : List String) (t : String) : t ∈ subAdd subs t := by
  unfold subAdd
  split
  · next h => exact h
  · exact List.mem_append_right _ (List.mem_singleton.mpr rfl)

/-- Folding subscribes preserves membership. -/
theorem foldl_subAdd_pres (ts : List String) :
    ∀ subs t, t ∈ subs → t ∈ ts.foldl subAdd subs := by
  induction ts with
  | nil =>
      intro subs t h
      exact h
  | cons u rest ih =>
      intro subs t h
      exact ih _ t (subAdd_mem subs t u h)

/-- Folding subscribes establishes every folded topic. -/
theorem foldl_subAdd_mem (ts : List String) :
    ∀ subs t, t ∈ ts → t ∈ ts.foldl subAdd subs := by
  induction ts with
  | nil =>
      intro subs t h
      cases h
  | cons u rest ih =>
      intro subs t h
      rcases List.mem_cons.mp h with rfl | h2
      · exact foldl_subAdd_pres rest _ t (subAdd_self subs t)
      · exact ih _ t h2

/-- The per-vehicle topic fold preserves membership. -/
theorem foldl_topics_pres (ids : List String) :
    ∀ subs t, t ∈ subs →
      t ∈ ids.foldl (fun subs id2 => (actionTopics id2).foldl subAdd subs) subs := by
  induction ids with
  | nil =>
      intro subs t h
      exact h
  | cons u rest ih =>
      intro subs t h
      exact ih _ t (foldl_subAdd_pres _ _ t h)

/-- The per-vehicle topic fold establishes the topics of every folded id. -/
theorem foldl_topics_mem (ids : List String) :
    ∀ subs id, id ∈ ids → ∀ t ∈ actionTopics id,
      t ∈ ids.foldl (fun subs id2 => (actionTopics id2).foldl subAdd subs) subs := by
  induction ids with
  | nil =>
      intro subs id h
      cases h
  | cons u rest ih =>
      intro subs id h t ht
      rcases List.mem_cons.mp h with rfl | h2
      · exact foldl_topics_pres rest _ t (foldl_subAdd_mem _ _ t ht)
      · exact ih _ id h2 t ht

/-- `subscribeForActions` establishes every topic of every known vehicle. -/
theorem subscribeForActions_mem (s : FleetState) (id : String)
    (hid : id ∈ s.cars.map Prod.fst) (t : String) (ht : t ∈ actionTopics id) :
    t ∈ (subscribeForActions s).subs :=
  foldl_topics_mem (s.cars.map Prod.fst) s.subs id hid t ht

/-- A keyed assignment keeps its own key. -/
theorem carsInsert_key (l : List (String × CarObj)) (k : String) (v : CarObj) :
    k ∈ (carsInsert l k v).map Prod.fst := by
  unfold carsInsert
  split
  · next h =>
      obtain ⟨q, hq, hqk⟩ := List.any_eq_true.mp h
      refine List.mem_map.mpr ⟨(k, v), List.mem_map.mpr ⟨q, hq, ?_⟩, rfl⟩
      rw [if_pos (by simpa using hqk)]
  · exact List.mem_map.mpr ⟨(k, v), List.mem_append_right _ (List.mem_singleton.mpr rfl), rfl⟩

/-- A keyed assignment preserves the existing keys. -/
theorem carsInsert_key_pres (l : List (String × CarObj)) (k2 : String) (v : CarObj)
    (k : String) (h : k ∈ l.map Prod.fst) : k ∈ (carsInsert l k2 v).map Prod.fst := by
  unfold carsInsert
  split
  · obtain ⟨q, hq, hqk⟩ := List.mem_map.mp h
    by_cases he : q.1 = k2
    · refine List.mem_map.mpr ⟨(k2, v), List.mem_map.mpr ⟨q, hq, by rw [if_pos he]⟩, ?_⟩
      rw [← hqk, he]
    · exact List.mem_map.mpr ⟨q, List.mem_map.mpr ⟨q, hq, by rw [if_neg he]⟩, hqk⟩
  · exact List.mem_map.mpr (by
      obtain ⟨q, hq, hqk⟩ := List.mem_map.mp h
      exact ⟨q, List.mem_append_left _ hq, hqk⟩)

/-- Keys survive the whole `forEach` build. -/
theorem buildCarsAux_keys_pres (listing : List String) :
    ∀ acc g k, k ∈ acc.map Prod.fst →
      k ∈ (buildCarsAux acc listing g).1.map Prod.fst := by
  induction listing with
  | nil =>
      intro acc g k h
      exact h
  | cons u rest ih =>
      intro acc g k h
      exact ih _ _ k (carsInsert_key_pres acc u ⟨u, g⟩ k h)

/-- Every listed id is a key of the freshly built map. -/
theorem buildCarsAux_keys (listing : List String) :
    ∀ acc g id, id ∈ listing → id ∈ (buildCarsAux acc listing g).1.map Prod.fst := by
  induction listing with
  | nil =>
      intro acc g id h
      cases h
  | cons u rest ih =>
      intro acc g id h
      rcases List.mem_cons.mp h with rfl | h2
      · exact buildCarsAux_keys_pres rest _ _ id (carsInsert_key acc id ⟨id, _⟩)
      · exact ih _ _ id h2

/-- C2 counterexample: refreshing the fleet `A, B` to the listing `B, C`
reconstructs `B` (the object is replaced, generation 1 becomes 2), throws
the `removeEventListeners` `TypeError`, and leaves the subscription set
untouched — the command topic of `A` is still subscribed even though it is not a
topic of `B` or `C` — so the claim that `B` is left untouched and the
subscription set becomes exactly the topics of the new listing is false of
the code. -/
theorem c2_fleet_diff_counterexample :
    carsLookup fleetA.cars ("B") = some ⟨"B", 1⟩ ∧
    carsLookup fleetB.1.cars ("B") = some ⟨"B", 2⟩ ∧
    carsLookup fleetB.1.cars ("B") ≠ carsLookup fleetA.cars ("B") ∧
    fleetB.2 = some ("TypeError: car.removeEventListeners is not a function") ∧
    fleetB.1.subs = fleetA.subs ∧
    ("volvooncall/A/startCharging") ∈ fleetB.1.subs ∧
    ("volvooncall/A/startCharging") ∉ actionTopics ("B") ++ actionTopics ("C") := by
  decide

/-- C2 amended: on every fleet refresh each listed vehicle — also one
retained from the previous set — is bound to a freshly constructed object,
never the previous one; when at least one vehicle was removed the
`vehicles_updated` handler throws on the undefined `removeEventListeners`
before any unsubscribe/resubscribe runs, so the error is reported and the
subscription set is left unchanged (the fleet map itself was already
replaced); only when nothing was removed does the handler complete, and
then every command topic of every listed vehicle is subscribed. -/
theorem c2_fleet_diff_amended :
    (∀ s listing p, p ∈ ((updateVehicles s listing).1).cars → s.nextGen ≤ p.2.gen) ∧
    (∀ s listing, (∀ q ∈ s.cars, q.2.gen < s.nextGen) →
      ∀ p ∈ ((updateVehicles s listing).1).cars, ∀ q ∈ s.cars, p.2 ≠ q.2) ∧
    (∀ s listing, (removedCarsOf s listing).isEmpty = false →
      (updateVehicles s listing).2 =
        some ("TypeError: car.removeEventListeners is not a function") ∧
      ((updateVehicles s listing).1).subs = s.subs) ∧
    (∀ s listing, (removedCarsOf s listing).isEmpty = true →
      (updateVehicles s listing).2 = none ∧
      ∀ id ∈ listing, ∀ t ∈ actionTopics id, t ∈ ((updateVehicles s listing).1).subs) := by
  refine ⟨?_, ?_, ?_, ?_⟩
  · intro s listing p hp
    rw [updateVehicles_cars] at hp
    rcases buildCarsAux_gen listing [] s.nextGen p hp with h | h
    · cases h
    · exact h
  · intro s listing hwf p hp q hq heq
    have h1 : s.nextGen ≤ p.2.gen := by
      rw [updateVehicles_cars] at hp
      rcases buildCarsAux_gen listing [] s.nextGen p hp with h | h
      · cases h
      · exact h
    have h2 : q.2.gen < s.nextGen := hwf q hq
    rw [heq] at h1
    omega
  · intro s listing hemp
    unfold updateVehicles
    rw [if_neg (by simp [hemp])]
    exact ⟨rfl, rfl⟩
  · intro s listing hemp
    unfold updateVehicles
    rw [if_pos hemp]
    refine ⟨rfl, ?_⟩
    intro id hid t ht
    have hkey : id ∈ ((unsubscribeForActions
        { s with cars := (buildCarsAux [] listing s.nextGen).1,
                 nextGen := (buildCarsAux [] listing s.nextGen).2 }
        (removedCarsOf s listing)).cars.map Prod.fst) :=
      buildCarsAux_keys listing [] s.nextGen id hid
    exact subscribeForActions_mem _ id hkey t ht

/-- Witness for C2 amended at the `A, B` to `B, C` refresh. -/
theorem c2_fleet_diff_amended_witness :
    fleetA.nextGen ≤ (⟨"B", 2⟩ : CarObj).gen ∧
    (updateVehicles fleetA ["B", "C"]).2 =
      some ("TypeError: car.removeEventListeners is not a function") ∧
    ((updateVehicles fleetA ["B", "C"]).1).subs = fleetA.subs ∧
    (updateVehicles ⟨[], 0, []⟩ ["A", "B"]).2 = none ∧
    ("volvooncall/A/startCharging") ∈ ((updateVehicles ⟨[], 0, []⟩ ["A", "B"]).1).subs := by
  have h1 := c2_fleet_diff_amended.1 fleetA ["B", "C"] ("B", ⟨"B", 2⟩) (by decide)
  have h3 := c2_fleet_diff_amended.2.2.1 fleetA ["B", "C"] (by decide)
  have h4 := c2_fleet_diff_amended.2.2.2 ⟨[], 0, []⟩ ["A", "B"] (by decide)
  exact ⟨h1, h3.1, h3.2, h4.1,
    h4.2 ("A") (by decide) ("volvooncall/A/startCharging") (by decide)⟩

/-- C6 counterexample: `handleMessage` throws — an unknown vehicle id on a
`startCharging` topic hits a property read of `undefined`, and an
unparsable `delayCharging` payload propagates the `JSON.parse` error — so
the claim that malformed commands are always logged and dropped without
throwing is false of the code. -/
theorem c6_handle_message_counterexample :
    handleMessage cloudStub jsonParseStub ("homeassistant/status") appState0
      ("volvooncall/UNKNOWN/startCharging") ("") =
      Except.error ("TypeError: reading startCharging of undefined") ∧
    handleMessage cloudStub jsonParseStub ("homeassistant/status")
      ⟨[("V1", sys0)], []⟩ ("volvooncall/V1/delayCharging") ("notjson") =
      Except.error ("SyntaxError: Unexpected token") := by
  exact ⟨rfl, rfl⟩

/-- C6 amended: an unrecognized topic suffix is logged and dropped
(`handleMessage` returns with the state unchanged), but an unknown vehicle
id on a dispatched command throws a `TypeError`, and an unparsable
`delayCharging` payload rethrows the `JSON.parse` error; neither is caught
anywhere in `handleMessage` or its callers. -/
theorem c6_handle_message_amended :
    (∀ cloud jp ht st topic payload, topic ≠ ht →
      ((splitSlash topic).get? 2).getD ("undefined") ∉
        (["startCharging", "delayCharging", "lock", "heater"] : List String) →
      handleMessage cloud jp ht st topic payload = Except.ok st) ∧
    (∀ cloud jp ht st topic payload, topic ≠ ht →
      ((splitSlash topic).get? 2).getD ("undefined") = "startCharging" →
      appCarsLookup st.cars (((splitSlash topic).get? 1).getD ("undefined")) = none →
      handleMessage cloud jp ht st topic payload =
        Except.error ("TypeError: reading startCharging of undefined")) ∧
    (∀ cloud jp ht st topic payload e, topic ≠ ht →
      ((splitSlash topic).get? 2).getD ("undefined") = "delayCharging" →
      jp payload = Except.error e →
      handleMessage cloud jp ht st topic payload = Except.error e) := by
  refine ⟨?_, ?_, ?_⟩
  · intro cloud jp ht st topic payload htop hcmd
    simp only [List.mem_cons, List.not_mem_nil, or_false, not_or] at hcmd
    obtain ⟨h1, h2, h3, h4⟩ := hcmd
    unfold handleMessage
    rw [if_neg htop]
    dsimp only
    rw [if_neg h1, if_neg h2, if_neg h3, if_neg h4]
  · intro cloud jp ht st topic payload htop hcmd hlook
    unfold handleMessage
    rw [if_neg htop]
    dsimp only
    rw [if_pos hcmd, hlook]
  · intro cloud jp ht st topic payload e htop hcmd hjp
    unfold handleMessage
    rw [if_neg htop]
    dsimp only
    rw [if_neg (by rw [hcmd]; decide), if_pos hcmd, hjp]

/-- Witness for C6 amended at concrete messages. -/
theorem c6_handle_message_amended_witness :
    handleMessage cloudStub jsonParseStub ("homeassistant/status") appState0
      ("volvooncall/V1/honkHorn") ("") = Except.ok appState0 ∧
    handleMessage cloudStub jsonParseStub ("homeassistant/status") appState0
      ("volvooncall/UNKNOWN/startCharging") ("") =
      Except.error ("TypeError: reading startCharging of undefined") ∧
    handleMessage cloudStub jsonParseStub ("homeassistant/status")
      ⟨[("V1", sys0)], []⟩ ("volvooncall/V1/delayCharging") ("notjson") =
      Except.error ("SyntaxError: Unexpected token") :=
  ⟨c6_handle_message_amended.1 cloudStub jsonParseStub ("homeassistant/status")
      appState0 ("volvooncall/V1/honkHorn") ("") (by decide) (by decide),
   c6_handle_message_amended.2.1 cloudStub jsonParseStub ("homeassistant/status")
      appState0 ("volvooncall/UNKNOWN/startCharging") ("") (by decide) (by decide) rfl,
   c6_handle_message_amended.2.2 cloudStub jsonParseStub ("homeassistant/status")
      ⟨[("V1", sys0)], []⟩ ("volvooncall/V1/delayCharging") ("notjson")
      ("SyntaxError: Unexpected token") (by decide) (by decide) rfl⟩

/-- `VocCar.delayCharging` records the PUT of the built payload as its first
new cloud call. -/
theorem carDelayCharging_calls (cloud : Cloud) (id dc st sp : Json) (s : Sys) :
    ∃ t, (carDelayCharging cloud id dc st sp s).calls =
      s.calls ++ CloudReq.putDelayCharging s.car.vehicleId id
        (delayChargingCloudPayload dc st sp) :: t := by
  unfold carDelayCharging
  dsimp only
  rcases hv : vocDelayChargingSys cloud id (delayChargingCloudPayload dc st sp) s
    with ⟨res, s1⟩
  obtain ⟨hcar, t, hcalls, ht⟩ :=
    vocDelayChargingSys_snd cloud id (delayChargingCloudPayload dc st sp) s
  rw [hv] at hcalls hcar
  dsimp only at hcalls hcar
  cases res with
  | error e => exact ⟨t, hcalls⟩
  | ok r =>
      refine ⟨t ++ [CloudReq.getStatus s1.car.vehicleId], ?_⟩
      show (carGetVehicleStatusFromCloud cloud _).calls = _
      rw [carGetStatusCloud_calls]
      dsimp only
      rw [hcalls]
      simp

/-- C9: a delay-charging MQTT command with payload fields `chargeLocation`,
optional `delayedCharging`, `startTime` and `stopTime` is submitted to the
cloud as `status "Accepted"` with a `delayCharging` object whose
`startTime` and `stopTime` are exactly the MQTT fields, targeted at the
given charge-location id, and whose `enabled` value defaults to `true` when
`delayedCharging` is omitted. -/
theorem c9_delay_payload_pipeline :
    (∀ cloud params s, s.calls = [] →
      (appDelayChargingCmd cloud params s).calls.head? =
        some (CloudReq.putDelayCharging s.car.vehicleId (jsGet params ("chargeLocation"))
          (delayChargingCloudPayload
            (jsOr (jsGet params ("delayedCharging")) (Json.bool true))
            (jsGet params ("startTime")) (jsGet params ("stopTime"))))) ∧
    (∀ params, jsGet params ("delayedCharging") = Json.undef →
      jsOr (jsGet params ("delayedCharging")) (Json.bool true) = Json.bool true) := by
  constructor
  · intro cloud params s hnil
    obtain ⟨t, ht⟩ := carDelayCharging_calls cloud (jsGet params ("chargeLocation"))
      (jsOr (jsGet params ("delayedCharging")) (Json.bool true))
      (jsGet params ("startTime")) (jsGet params ("stopTime")) s
    show (carDelayCharging cloud _ _ _ _ s).calls.head? = _
    rw [ht, hnil]
    rfl
  · intro params h
    rw [jsOr, h]
    rfl

/-- Witness for C9 at a fully populated and at a `delayedCharging`-less
payload. -/
theorem c9_delay_payload_pipeline_witness :
    (appDelayChargingCmd cloudStub params9 sys0).calls.head? =
      some (CloudReq.putDelayCharging ("V1") (Json.str ("123"))
        (delayChargingCloudPayload (Json.bool true) (Json.str ("01:00"))
          (Json.str ("05:00")))) ∧
    jsOr (jsGet params9b ("delayedCharging")) (Json.bool true) = Json.bool true := by
  constructor
  · exact (c9_delay_payload_pipeline.1 cloudStub params9 sys0 rfl).trans (by rfl)
  · exact c9_delay_payload_pipeline.2 params9b rfl
